import Mathlib

/-!
# Valthrun kernel driver: the SEH wrapper `seh_stub`

Source: `kernel/driver/src/kapi/seh/wrapper.c`.

```c
typedef void (*seh_callback)(void*);

int seh_stub(const seh_callback callback, void* closure_ptr)
{
    __try
    {
        callback(closure_ptr);
        return 0;
    }
    __except(EXCEPTION_EXECUTE_HANDLER)
    {
        return GetExceptionCode();
    }
}
```

The embedding is denotational.  Running a piece of C code from a state ends in
an `Outcome`: it either runs to completion (with a value and a final state) or
a synchronous exception with a 32-bit code is in flight (with the state at the
point of the fault).  A callback is a function from its argument and the state
to such an outcome; callbacks that never end and faults the platform does not
deliver to a handler (bug checks) have no outcome and are outside the model.
The `__try`/`__except` statement is the combinator `try_except`, and
`seh_stub` is written with it, line for line.

Machine integers: an exception code is an `unsigned long` (32 bits on the
MSVC targets of the driver), a `Nat` reduced modulo `2 ^ 32`; the `int` that
`seh_stub` returns is an `Int` in `[-2 ^ 31, 2 ^ 31)`, and the conversion that
`return GetExceptionCode();` performs is `int_of_ulong`.
-/

namespace Valthrun

/-! ## Outcomes of running C code -/

/-- Value of a `void*`: an address; `0` is the null pointer. -/
abbrev Ptr := Nat

/-- How a run of C code ends: normal completion with a value, or a synchronous
exception with the given code; both carry the state reached. -/
inductive Outcome (σ : Type) (α : Type) where
  | completed (value : α) (state : σ)
  | raised (code : Nat) (state : σ)
  deriving DecidableEq, Repr

namespace Outcome

variable {σ α β : Type}

/-- State in which the run ended (final state, or state at the fault). -/
def state : Outcome σ α → σ
  | completed _ s => s
  | raised _ s => s

/-- Value produced by a run that completed. -/
def value? : Outcome σ α → Option α
  | completed v _ => some v
  | raised _ _ => none

/-- Code of the exception in flight, if any. -/
def code? : Outcome σ α → Option Nat
  | completed _ _ => none
  | raised c _ => some c

/-- Sequencing `first; next`: an exception raised by `first` skips `next`. -/
def bind (first : Outcome σ α) (next : α → σ → Outcome σ β) : Outcome σ β :=
  match first with
  | completed v s => next v s
  | raised c s => raised c s

end Outcome

/-! ## Structured exception handling -/

/-- Filter value of `excpt.h`: run the handler block. -/
def EXCEPTION_EXECUTE_HANDLER : Int := 1

/-- Filter value of `excpt.h`: this scope declines, the search goes on outwards. -/
def EXCEPTION_CONTINUE_SEARCH : Int := 0

/-- Filter value of `excpt.h`: dismiss the exception and resume at the fault. -/
def EXCEPTION_CONTINUE_EXECUTION : Int := -1

/-- The intrinsic `GetExceptionCode()` inside a handler for an exception raised
with `code`: an `unsigned long`. -/
def GetExceptionCode (code : Nat) : Nat := code % 2 ^ 32

/-- Conversion of an `unsigned long` to `int` (both 32 bits), as done by a
`return` of an `unsigned long` expression in a function returning `int`. -/
def int_of_ulong (u : Nat) : Int :=
  if u % 2 ^ 32 < 2 ^ 31 then ((u % 2 ^ 32 : Nat) : Int) else ((u % 2 ^ 32 : Nat) : Int) - 2 ^ 32

/-- Conversion of an `int` to `unsigned long` (the cast `(unsigned long) i`). -/
def ulong_of_int (i : Int) : Nat := (i % 2 ^ 32).toNat

/-- The statement `__try { body } __except (filter) { handler }`.
A body that completes leaves the statement with its value.  When the body
raises, the filter is evaluated on the exception code: on
`EXCEPTION_EXECUTE_HANDLER` the handler runs from the state at the fault and
the rest of the body is not executed; on any other value this scope does not
handle the exception and it stays in flight for the enclosing scopes
(resumption at the fault, `EXCEPTION_CONTINUE_EXECUTION`, is not modelled:
no filter of the driver yields it). -/
def try_except {σ α : Type} (body : σ → Outcome σ α) (filter : Nat → Int)
    (handler : Nat → σ → Outcome σ α) (s : σ) : Outcome σ α :=
  match body s with
  | .completed v s1 => .completed v s1
  | .raised c s1 =>
    if filter c = EXCEPTION_EXECUTE_HANDLER then handler c s1 else .raised c s1

/-! ## wrapper.c -/

/-- Type of a function that can be called by `seh_stub`:
`typedef void (*seh_callback)(void*);`. -/
abbrev seh_callback (σ : Type) := Ptr → σ → Outcome σ Unit

/-- Filter expression of the `__except` clause of `seh_stub`: the constant
`EXCEPTION_EXECUTE_HANDLER`, whatever the code. -/
def seh_stub_filter (_code : Nat) : Int := EXCEPTION_EXECUTE_HANDLER

/-- Function `int seh_stub(const seh_callback callback, void* closure_ptr)`. -/
def seh_stub {σ : Type} (callback : seh_callback σ) (closure_ptr : Ptr) (s : σ) :
    Outcome σ Int :=
  try_except
    (fun s0 => (callback closure_ptr s0).bind (fun _ s1 => .completed 0 s1))
    seh_stub_filter
    (fun code s1 => .completed (int_of_ulong (GetExceptionCode code)) s1)
    s

/-! ## Callers and callbacks used to exercise `seh_stub`

None of these is in `wrapper.c`: they are the callers and callbacks that its
contract talks about (a caller making two calls in a row, a callback that
itself calls `seh_stub`, a callback that records its argument) and the test
callbacks of the concrete scenarios (a write through the null pointer, an
increment through the context pointer). -/

/-- A caller that runs `seh_stub(f, p)` and then `seh_stub(g, q)`, keeping
both statuses. -/
def call_twice {σ : Type} (f : seh_callback σ) (p : Ptr) (g : seh_callback σ) (q : Ptr)
    (s : σ) : Outcome σ (Int × Int) :=
  (seh_stub f p s).bind fun r1 s1 =>
    (seh_stub g q s1).bind fun r2 s2 => .completed (r1, r2) s2

/-- An outer callback that first runs `before`, then calls
`seh_stub(inner, q)`, then runs `after` on the status it got back. -/
def nested_callback {σ : Type} (before : seh_callback σ) (inner : seh_callback σ) (q : Ptr)
    (after : Int → seh_callback σ) : seh_callback σ :=
  fun p s =>
    (before p s).bind fun _ s0 =>
      (seh_stub inner q s0).bind fun r s1 => after r p s1

/-- Instrumented callback: behaves as `cb` on the second component of the
state, and on entry appends the argument it was called with to the call log
in the first component. -/
def traced {σ : Type} (cb : seh_callback σ) : seh_callback (List Ptr × σ) :=
  fun arg ls =>
    match cb arg ls.2 with
    | .completed v s1 => .completed v (ls.1 ++ [arg], s1)
    | .raised c s1 => .raised c (ls.1 ++ [arg], s1)

/-- A callback that raises an exception with the given code at once, as
`ExRaiseStatus(code)` does. -/
def raise_callback {σ : Type} (code : Nat) : seh_callback σ :=
  fun _ s => .raised code s

/-- A callback that returns at once without touching its context. -/
def idle_callback {σ : Type} : seh_callback σ :=
  fun _ s => .completed () s

/-- Memory of `int` cells: a mapped address holds a value, `none` is an
address that is not mapped. -/
abbrev Mem := Ptr → Option Int

/-- Exception code of an invalid memory access (`STATUS_ACCESS_VIOLATION`). -/
def STATUS_ACCESS_VIOLATION : Nat := 0xC0000005

/-- Read of the `int` at `addr`; faults when the address is not mapped. -/
def load (addr : Ptr) (m : Mem) : Outcome Mem Int :=
  match m addr with
  | some v => .completed v m
  | none => .raised STATUS_ACCESS_VIOLATION m

/-- Write of `v` to the `int` at `addr`; faults when the address is not mapped. -/
def store (addr : Ptr) (v : Int) (m : Mem) : Outcome Mem Unit :=
  match m addr with
  | some _ => .completed () (fun a => if a = addr then some v else m a)
  | none => .raised STATUS_ACCESS_VIOLATION m

/-- Test callback `*(int*)0 = 1;`: a write through the null pointer. -/
def null_write_callback : seh_callback Mem :=
  fun _ m => store 0 1 m

/-- Test callback `++*(int*)ctx;`: increments the `int` its context points to. -/
def increment_callback : seh_callback Mem :=
  fun ctx m => (load ctx m).bind fun v m1 => store ctx (v + 1) m1

/-- Test callback `*(int*)ctx = 7; *(int*)0 = 1; *(int*)ctx = 9;`: a write
that succeeds, a write that faults, and a write that is never reached. -/
def write_fault_write_callback : seh_callback Mem :=
  fun ctx m =>
    (store ctx 7 m).bind fun _ m1 =>
      (store 0 1 m1).bind fun _ m2 => store ctx 9 m2

/-- Callback `*(int*)ctx = status;` used after a nested call: stores the
status the inner `seh_stub` returned into the `int` the context points to. -/
def record_status : Int → seh_callback Mem :=
  fun status ctx m => store ctx status m

/-- A memory with a single mapped cell, at address `0x1000`, holding `41`;
address `0` is not mapped. -/
def mem0 : Mem := fun a => if a = 0x1000 then some 41 else none

/-! ## Shared lemmas -/

section Lemmas

variable {σ : Type}

/-- The two paths of `seh_stub`, read off the outcome of the callback. -/
theorem seh_stub_eq_match (cb : seh_callback σ) (p : Ptr) (s : σ) :
    seh_stub cb p s =
      match cb p s with
      | .completed _ s1 => .completed 0 s1
      | .raised c s1 => .completed (int_of_ulong (GetExceptionCode c)) s1 := by
  unfold seh_stub try_except Outcome.bind
  cases h : cb p s <;> simp [h, seh_stub_filter]

/-- Path through `return 0;`. -/
theorem seh_stub_of_completed (cb : seh_callback σ) (p : Ptr) (s s1 : σ)
    (h : cb p s = .completed () s1) : seh_stub cb p s = .completed 0 s1 := by
  rw [seh_stub_eq_match, h]

/-- Path through the handler. -/
theorem seh_stub_of_raised (cb : seh_callback σ) (p : Ptr) (s s1 : σ) (c : Nat)
    (h : cb p s = .raised c s1) :
    seh_stub cb p s = .completed (int_of_ulong (GetExceptionCode c)) s1 := by
  rw [seh_stub_eq_match, h]

theorem GetExceptionCode_of_lt (c : Nat) (h : c < 2 ^ 32) : GetExceptionCode c = c := by
  unfold GetExceptionCode
  exact Nat.mod_eq_of_lt h

theorem int_of_ulong_of_lt (c : Nat) (h : c < 2 ^ 32) :
    int_of_ulong c = if c < 2 ^ 31 then (c : Int) else (c : Int) - 2 ^ 32 := by
  unfold int_of_ulong
  rw [Nat.mod_eq_of_lt h]

theorem int_of_ulong_range (c : Nat) : -2 ^ 31 ≤ int_of_ulong c ∧ int_of_ulong c < 2 ^ 31 := by
  unfold int_of_ulong
  split <;> omega

theorem ulong_of_int_of_ulong (c : Nat) : ulong_of_int (int_of_ulong c) = c % 2 ^ 32 := by
  unfold ulong_of_int int_of_ulong
  split <;> omega

theorem int_of_ulong_eq_zero_iff (c : Nat) : int_of_ulong c = 0 ↔ c % 2 ^ 32 = 0 := by
  unfold int_of_ulong
  split <;> omega

/-- The model of `__try`/`__except` can let an exception through: with a
filter that answers `EXCEPTION_CONTINUE_SEARCH` the exception stays in flight. -/
theorem try_except_continue_search {α : Type} (body : σ → Outcome σ α)
    (handler : Nat → σ → Outcome σ α) (s s1 : σ) (c : Nat) (h : body s = .raised c s1) :
    try_except body (fun _ => EXCEPTION_CONTINUE_SEARCH) handler s = .raised c s1 := by
  unfold try_except
  rw [h]
  simp [EXCEPTION_CONTINUE_SEARCH, EXCEPTION_EXECUTE_HANDLER]

end Lemmas

/-! ## The status returned on the two paths -/

section Status

variable {σ : Type}

/-- C1: when `callback(closure_ptr)` raises an exception with the 32-bit code
`c`, `seh_stub` returns exactly `c`, with no mapping: the status is the `int`
that `return GetExceptionCode();` makes of `c`, which has the same 32 bits, so
read as 32 unsigned bits the status is `c` itself for every code, and as a
number it is `c` whenever `c` fits an `int`. -/
theorem seh_stub_returns_raw_exception_code (cb : seh_callback σ) (p : Ptr) (s s1 : σ)
    (c : Nat) (hc : c < 2 ^ 32) (h : cb p s = .raised c s1) :
    seh_stub cb p s = .completed (int_of_ulong c) s1 ∧
      (seh_stub cb p s).value?.map ulong_of_int = some c ∧
      int_of_ulong c % 2 ^ 32 = (c : Int) ∧
      (c < 2 ^ 31 → int_of_ulong c = (c : Int)) := by
  have hs : seh_stub cb p s = .completed (int_of_ulong c) s1 := by
    rw [seh_stub_of_raised cb p s s1 c h, GetExceptionCode_of_lt c hc]
  have hu : ulong_of_int (int_of_ulong c) = c := by
    rw [ulong_of_int_of_ulong, Nat.mod_eq_of_lt hc]
  refine ⟨hs, ?_, ?_, ?_⟩
  · rw [hs]
    simp [Outcome.value?, hu]
  · rw [int_of_ulong_of_lt c hc]
    split <;> omega
  · intro hlt
    rw [int_of_ulong_of_lt c hc, if_pos hlt]

/-- C1 at the write to address `0x0` with a null context: the callback raises
`STATUS_ACCESS_VIOLATION` and the 32 bits of the status `seh_stub` returns are
`STATUS_ACCESS_VIOLATION`, `0xC0000005`. -/
theorem seh_stub_returns_raw_exception_code_witness :
    (STATUS_ACCESS_VIOLATION < 2 ^ 32 ∧
      null_write_callback 0 mem0 = .raised STATUS_ACCESS_VIOLATION mem0) ∧
    STATUS_ACCESS_VIOLATION = 0xC0000005 ∧
    (seh_stub null_write_callback 0 mem0 = .completed (int_of_ulong STATUS_ACCESS_VIOLATION) mem0 ∧
      (seh_stub null_write_callback 0 mem0).value?.map ulong_of_int
        = some STATUS_ACCESS_VIOLATION ∧
      int_of_ulong STATUS_ACCESS_VIOLATION % 2 ^ 32 = (STATUS_ACCESS_VIOLATION : Int) ∧
      (STATUS_ACCESS_VIOLATION < 2 ^ 31 →
        int_of_ulong STATUS_ACCESS_VIOLATION = (STATUS_ACCESS_VIOLATION : Int))) :=
  ⟨⟨by decide, rfl⟩, rfl,
    seh_stub_returns_raw_exception_code null_write_callback 0 mem0 mem0
      STATUS_ACCESS_VIOLATION (by decide) rfl⟩

/-- C2: when `callback(closure_ptr)` runs to completion, `seh_stub` returns
`0`, for every callback, every context pointer and every state the callback
leaves behind. -/
theorem seh_stub_returns_zero_on_completion (cb : seh_callback σ) (p : Ptr) (s s1 : σ)
    (h : cb p s = .completed () s1) : seh_stub cb p s = .completed 0 s1 :=
  seh_stub_of_completed cb p s s1 h

/-- C2 at a callback that mutates the memory its context points to. -/
theorem seh_stub_returns_zero_on_completion_witness :
    increment_callback 0x1000 mem0
        = .completed () (increment_callback 0x1000 mem0).state ∧
      seh_stub increment_callback 0x1000 mem0
        = .completed 0 (increment_callback 0x1000 mem0).state :=
  ⟨rfl, seh_stub_returns_zero_on_completion increment_callback 0x1000 mem0 _ rfl⟩

/-- C3, as stated, at a callback that raises an exception whose code is `0`:
an exception interrupted the callback and the status is `0` all the same. -/
theorem seh_stub_zero_status_after_exception :
    raise_callback 0 0 () = .raised 0 () ∧
      seh_stub (raise_callback 0) 0 () = .completed 0 () := by
  decide

/-- C3, amended: for a callback whose exception codes are 32-bit values,
`seh_stub` returns `0` exactly when the callback ran to completion or was
interrupted by an exception whose code is `0`, and returns a nonzero value
exactly when it was interrupted by an exception whose code is not `0`. -/
theorem seh_stub_status_zero_iff (cb : seh_callback σ) (p : Ptr) (s : σ)
    (hc : ∀ c, (cb p s).code? = some c → c < 2 ^ 32) :
    ((seh_stub cb p s).value? = some 0 ↔
        ((cb p s).code? = none ∨ (cb p s).code? = some 0)) ∧
      ((∃ r, (seh_stub cb p s).value? = some r ∧ r ≠ 0) ↔
        ∃ c, (cb p s).code? = some c ∧ c ≠ 0) := by
  rw [seh_stub_eq_match]
  cases h : cb p s with
  | completed v s1 => simp [Outcome.value?, Outcome.code?]
  | raised c s1 =>
    have hlt : c < 2 ^ 32 := hc c (by rw [h]; rfl)
    have hz : int_of_ulong (GetExceptionCode c) = 0 ↔ c = 0 := by
      rw [GetExceptionCode_of_lt c hlt, int_of_ulong_eq_zero_iff, Nat.mod_eq_of_lt hlt]
    simp [Outcome.value?, Outcome.code?, hz]

/-- C3, amended, at the null write: the code is not `0`, so neither is the
status. -/
theorem seh_stub_status_zero_iff_witness :
    (∀ c, (null_write_callback 0 mem0).code? = some c → c < 2 ^ 32) ∧
      (((seh_stub null_write_callback 0 mem0).value? = some 0 ↔
          ((null_write_callback 0 mem0).code? = none ∨
            (null_write_callback 0 mem0).code? = some 0)) ∧
        ((∃ r, (seh_stub null_write_callback 0 mem0).value? = some r ∧ r ≠ 0) ↔
          ∃ c, (null_write_callback 0 mem0).code? = some c ∧ c ≠ 0)) :=
  have hc : ∀ c, (null_write_callback 0 mem0).code? = some c → c < 2 ^ 32 := by
    intro c h
    have h1 : (null_write_callback 0 mem0).code? = some 3221225477 := rfl
    rw [h1] at h
    have h2 : (3221225477 : Nat) = c := Option.some.inj h
    omega
  ⟨hc, seh_stub_status_zero_iff null_write_callback 0 mem0 hc⟩

/-- C10: for an exception code `c` with `0 <= c < 2 ^ 32` the status is `c`
read in two's complement (`c` when `c < 2 ^ 31`, otherwise `c - 2 ^ 32`), an
`int`; casting it back to 32 unsigned bits gives `c`; a code at or above
`0xC0000000` comes back negative; and two codes with the same status are the
same code. -/
theorem seh_stub_status_twos_complement (cb : seh_callback σ) (p : Ptr) (s s1 : σ)
    (c : Nat) (hc : c < 2 ^ 32) (h : cb p s = .raised c s1) :
    ∃ r : Int, seh_stub cb p s = .completed r s1 ∧
      r = (if c < 2 ^ 31 then (c : Int) else (c : Int) - 2 ^ 32) ∧
      (-2 ^ 31 ≤ r ∧ r < 2 ^ 31) ∧
      ulong_of_int r = c ∧
      (0xC0000000 ≤ c → r < 0) ∧
      (∀ (τ : Type) (cb2 : seh_callback τ) (p2 : Ptr) (t t1 : τ) (c2 : Nat), c2 < 2 ^ 32 →
        cb2 p2 t = .raised c2 t1 → (seh_stub cb2 p2 t).value? = some r → c2 = c) := by
  refine ⟨int_of_ulong c, ?_, int_of_ulong_of_lt c hc, int_of_ulong_range c, ?_, ?_, ?_⟩
  · rw [seh_stub_of_raised cb p s s1 c h, GetExceptionCode_of_lt c hc]
  · rw [ulong_of_int_of_ulong, Nat.mod_eq_of_lt hc]
  · intro hneg
    rw [int_of_ulong_of_lt c hc]
    split <;> omega
  · intro τ cb2 p2 t t1 c2 hc2 h2 hv
    rw [seh_stub_of_raised cb2 p2 t t1 c2 h2, GetExceptionCode_of_lt c2 hc2] at hv
    have he : int_of_ulong c2 = int_of_ulong c := Option.some.inj hv
    have h3 := congrArg ulong_of_int he
    rw [ulong_of_int_of_ulong, ulong_of_int_of_ulong, Nat.mod_eq_of_lt hc,
      Nat.mod_eq_of_lt hc2] at h3
    exact h3

/-- C10 at the access violation: `0xC0000005` comes back as `-1073741819`. -/
theorem seh_stub_status_twos_complement_witness :
    (STATUS_ACCESS_VIOLATION < 2 ^ 32 ∧
      null_write_callback 0 mem0 = .raised STATUS_ACCESS_VIOLATION mem0) ∧
    (-1073741819 : Int) = (STATUS_ACCESS_VIOLATION : Int) - 2 ^ 32 ∧
    ∃ r : Int, seh_stub null_write_callback 0 mem0 = .completed r mem0 ∧
      r = (if STATUS_ACCESS_VIOLATION < 2 ^ 31 then (STATUS_ACCESS_VIOLATION : Int)
        else (STATUS_ACCESS_VIOLATION : Int) - 2 ^ 32) ∧
      (-2 ^ 31 ≤ r ∧ r < 2 ^ 31) ∧
      ulong_of_int r = STATUS_ACCESS_VIOLATION ∧
      (0xC0000000 ≤ STATUS_ACCESS_VIOLATION → r < 0) ∧
      (∀ (τ : Type) (cb2 : seh_callback τ) (p2 : Ptr) (t t1 : τ) (c2 : Nat), c2 < 2 ^ 32 →
        cb2 p2 t = .raised c2 t1 → (seh_stub cb2 p2 t).value? = some r →
          c2 = STATUS_ACCESS_VIOLATION) :=
  ⟨⟨by decide, rfl⟩, by decide,
    seh_stub_status_twos_complement null_write_callback 0 mem0 mem0
      STATUS_ACCESS_VIOLATION (by decide) rfl⟩

end Status

/-! ## Containment, argument passing and effects -/

section Effects

variable {σ : Type}

/-- C4: the filter of `seh_stub` is `EXCEPTION_EXECUTE_HANDLER` for every
exception code, so for every callback, context and state `seh_stub` ends by
returning an `int`: no exception is in flight after it, and every exception
raised in the callback is turned into a status by the same handler. -/
theorem seh_stub_never_propagates (cb : seh_callback σ) (p : Ptr) (s : σ) :
    (∀ c, seh_stub_filter c = EXCEPTION_EXECUTE_HANDLER) ∧
      (∃ r s1, seh_stub cb p s = .completed r s1) ∧
      (∀ c s1, seh_stub cb p s ≠ .raised c s1) ∧
      (∀ c s1, cb p s = .raised c s1 →
        seh_stub cb p s = .completed (int_of_ulong (GetExceptionCode c)) s1) := by
  refine ⟨fun _ => rfl, ?_, ?_, fun c s1 h => seh_stub_of_raised cb p s s1 c h⟩
  · rw [seh_stub_eq_match]
    cases cb p s with
    | completed v s1 => exact ⟨0, s1, rfl⟩
    | raised c s1 => exact ⟨_, s1, rfl⟩
  · intro c s1
    rw [seh_stub_eq_match]
    cases cb p s <;> simp

/-- C5: the argument the callback is called with is `closure_ptr` itself, for
every callback and every pointer value (null included): a callback that
records its argument records exactly `p`.  And `seh_stub` does not access the
memory behind the pointer: with a callback that does nothing it returns `0`
and leaves every memory as it was, mapped at `p` or not. -/
theorem seh_stub_forwards_closure_ptr (cb : seh_callback σ) (p : Ptr) (log : List Ptr)
    (s : σ) :
    (seh_stub (traced cb) p (log, s)).state.1 = log ++ [p] ∧
      (seh_stub (traced cb) 0 (log, s)).state.1 = log ++ [0] ∧
      (∀ m : Mem, seh_stub idle_callback p m = .completed 0 m) := by
  refine ⟨?_, ?_, fun m => rfl⟩
  · rw [seh_stub_eq_match]
    unfold traced
    cases cb p s <;> rfl
  · rw [seh_stub_eq_match]
    unfold traced
    cases cb 0 s <;> rfl

/-- C6: the state after `seh_stub(callback, closure_ptr)` is the state the
callback produced: its final state when it completes, the state at the fault
when it raises (what it wrote before the fault is kept, what comes after the
fault is not executed); `seh_stub` adds no effect of its own. -/
theorem seh_stub_keeps_callback_state (cb : seh_callback σ) (p : Ptr) (s : σ) :
    (seh_stub cb p s).state = (cb p s).state := by
  rw [seh_stub_eq_match]
  cases cb p s <;> rfl

/-- C6 on the memory with `41` at `0x1000`: the increment callback makes
`seh_stub` return `0` with `42` in the cell; the callback that writes `7`,
faults, and would then write `9` leaves `7` in the cell. -/
theorem seh_stub_keeps_callback_state_witness :
    (seh_stub increment_callback 0x1000 mem0).value? = some 0 ∧
      (seh_stub increment_callback 0x1000 mem0).state 0x1000 = some 42 ∧
      (seh_stub increment_callback 0x1000 mem0).state
        = (increment_callback 0x1000 mem0).state ∧
      (seh_stub write_fault_write_callback 0x1000 mem0).value? = some (-1073741819) ∧
      (seh_stub write_fault_write_callback 0x1000 mem0).state 0x1000 = some 7 ∧
      (seh_stub write_fault_write_callback 0x1000 mem0).state
        = (write_fault_write_callback 0x1000 mem0).state :=
  ⟨rfl, rfl, seh_stub_keeps_callback_state increment_callback 0x1000 mem0, rfl, rfl,
    seh_stub_keeps_callback_state write_fault_write_callback 0x1000 mem0⟩

/-- C9: one call of `seh_stub` calls the callback exactly once (the call log
of a recording callback grows by one entry, whether the callback completes or
faults), and exactly one of the two exits is taken: either the callback
completed and `0` is returned, or the callback raised and the handler returns
the exception code (as an `int`). -/
theorem seh_stub_single_attempt (cb : seh_callback σ) (p : Ptr) (log : List Ptr) (s : σ) :
    (seh_stub (traced cb) p (log, s)).state.1.length = log.length + 1 ∧
      Xor' (∃ s1, cb p s = .completed () s1 ∧ seh_stub cb p s = .completed 0 s1)
        (∃ c s1, cb p s = .raised c s1 ∧
          seh_stub cb p s = .completed (int_of_ulong (GetExceptionCode c)) s1) := by
  constructor
  · rw [seh_stub_eq_match]
    unfold traced
    cases cb p s <;> simp [Outcome.state]
  · rw [seh_stub_eq_match]
    cases cb p s with
    | completed v s1 =>
      refine Or.inl ⟨⟨s1, rfl, rfl⟩, ?_⟩
      rintro ⟨c, s2, h, _⟩
      cases h
    | raised c s1 =>
      refine Or.inr ⟨⟨c, s1, rfl, rfl⟩, ?_⟩
      rintro ⟨s2, h, _⟩
      cases h

end Effects

/-! ## Calls in sequence and nested calls -/

section Composition

variable {σ : Type}

/-- C7: after a call `seh_stub(f, p)` whose callback faulted, a call
`seh_stub(g, q)` whose callback completes from the state left behind returns
`0`.  More generally, whatever the first call was and however it ended, the
status and final state of the second call are those of `seh_stub(g2, q2)` run
from the state at the time of the call. -/
theorem seh_stub_sequential_calls_independent (f g : seh_callback σ) (p q : Ptr)
    (s s1 s2 : σ) (c : Nat) (hf : f p s = .raised c s1) (hg : g q s1 = .completed () s2) :
    call_twice f p g q s = .completed (int_of_ulong (GetExceptionCode c), 0) s2 ∧
      (∀ (f2 g2 : seh_callback σ) (p2 q2 : Ptr) (t : σ),
        (call_twice f2 p2 g2 q2 t).value?.map Prod.snd
            = (seh_stub g2 q2 (seh_stub f2 p2 t).state).value? ∧
          (call_twice f2 p2 g2 q2 t).state
            = (seh_stub g2 q2 (seh_stub f2 p2 t).state).state) := by
  constructor
  · unfold call_twice
    rw [seh_stub_of_raised f p s s1 c hf]
    simp only [Outcome.bind]
    rw [seh_stub_of_completed g q s1 s2 hg]
  · intro f2 g2 p2 q2 t
    unfold call_twice
    rw [seh_stub_eq_match f2 p2 t]
    cases f2 p2 t with
    | completed v t1 =>
      simp only [Outcome.bind, Outcome.state]
      rw [seh_stub_eq_match g2 q2 t1]
      cases g2 q2 t1 <;> exact ⟨rfl, rfl⟩
    | raised c2 t1 =>
      simp only [Outcome.bind, Outcome.state]
      rw [seh_stub_eq_match g2 q2 t1]
      cases g2 q2 t1 <;> exact ⟨rfl, rfl⟩

/-- C7 on the memory with `41` at `0x1000`: a null write, then an increment. -/
theorem seh_stub_sequential_calls_independent_witness :
    (null_write_callback 0 mem0 = .raised STATUS_ACCESS_VIOLATION mem0 ∧
      increment_callback 0x1000 mem0
        = .completed () (increment_callback 0x1000 mem0).state) ∧
    (call_twice null_write_callback 0 increment_callback 0x1000 mem0).value?
      = some (-1073741819, 0) ∧
    (call_twice null_write_callback 0 increment_callback 0x1000 mem0
        = .completed (int_of_ulong (GetExceptionCode STATUS_ACCESS_VIOLATION), 0)
            (increment_callback 0x1000 mem0).state ∧
      (∀ (f2 g2 : seh_callback Mem) (p2 q2 : Ptr) (t : Mem),
        (call_twice f2 p2 g2 q2 t).value?.map Prod.snd
            = (seh_stub g2 q2 (seh_stub f2 p2 t).state).value? ∧
          (call_twice f2 p2 g2 q2 t).state
            = (seh_stub g2 q2 (seh_stub f2 p2 t).state).state)) :=
  ⟨⟨rfl, rfl⟩, rfl,
    seh_stub_sequential_calls_independent null_write_callback increment_callback 0 0x1000
      mem0 mem0 _ STATUS_ACCESS_VIOLATION rfl rfl⟩

/-- C8: when the inner callback raises an exception with the 32-bit code `c`,
the inner call `seh_stub(inner, q)` returns `c` to the outer callback (the
`int` with the 32 bits of `c`, which read as unsigned is `c`); when the outer
callback then returns normally, the outer call `seh_stub(outer, p)` returns
`0`, whatever `c` is: the inner fault does not reach the outer call and is not
in its status. -/
theorem nested_seh_stub_inner_fault_contained (before inner : seh_callback σ)
    (after : Int → seh_callback σ) (p q : Ptr) (s s0 s1 s2 : σ) (c : Nat)
    (hc : c < 2 ^ 32) (hb : before p s = .completed () s0)
    (hi : inner q s0 = .raised c s1)
    (ha : after (int_of_ulong c) p s1 = .completed () s2) :
    seh_stub inner q s0 = .completed (int_of_ulong c) s1 ∧
      (seh_stub inner q s0).value?.map ulong_of_int = some c ∧
      nested_callback before inner q after p s = .completed () s2 ∧
      seh_stub (nested_callback before inner q after) p s = .completed 0 s2 := by
  have hin : seh_stub inner q s0 = .completed (int_of_ulong c) s1 := by
    rw [seh_stub_of_raised inner q s0 s1 c hi, GetExceptionCode_of_lt c hc]
  have hu : ulong_of_int (int_of_ulong c) = c := by
    rw [ulong_of_int_of_ulong, Nat.mod_eq_of_lt hc]
  have hout : nested_callback before inner q after p s = .completed () s2 := by
    unfold nested_callback
    rw [hb]
    simp only [Outcome.bind]
    rw [hin]
    exact ha
  refine ⟨hin, ?_, hout, seh_stub_of_completed _ p s s2 hout⟩
  rw [hin]
  simp [Outcome.value?, hu]

/-- C8 at a null write nested in a callback that stores the status it gets
back at `0x1000`: the 32 bits stored are `STATUS_ACCESS_VIOLATION` and the
outer call returns `0`. -/
theorem nested_seh_stub_inner_fault_contained_witness :
    (STATUS_ACCESS_VIOLATION < 2 ^ 32 ∧
      idle_callback 0x1000 mem0 = .completed () mem0 ∧
      null_write_callback 0 mem0 = .raised STATUS_ACCESS_VIOLATION mem0 ∧
      record_status (int_of_ulong STATUS_ACCESS_VIOLATION) 0x1000 mem0
        = .completed ()
            (record_status (int_of_ulong STATUS_ACCESS_VIOLATION) 0x1000 mem0).state) ∧
    ((record_status (int_of_ulong STATUS_ACCESS_VIOLATION) 0x1000 mem0).state 0x1000).map
        ulong_of_int = some STATUS_ACCESS_VIOLATION ∧
    (seh_stub null_write_callback 0 mem0
        = .completed (int_of_ulong STATUS_ACCESS_VIOLATION) mem0 ∧
      (seh_stub null_write_callback 0 mem0).value?.map ulong_of_int
        = some STATUS_ACCESS_VIOLATION ∧
      nested_callback idle_callback null_write_callback 0 record_status 0x1000 mem0
        = .completed ()
            (record_status (int_of_ulong STATUS_ACCESS_VIOLATION) 0x1000 mem0).state ∧
      seh_stub (nested_callback idle_callback null_write_callback 0 record_status) 0x1000 mem0
        = .completed 0
            (record_status (int_of_ulong STATUS_ACCESS_VIOLATION) 0x1000 mem0).state) :=
  ⟨⟨by decide, rfl, rfl, rfl⟩, rfl,
    nested_seh_stub_inner_fault_contained idle_callback null_write_callback record_status
      0x1000 0 mem0 mem0 mem0 _ STATUS_ACCESS_VIOLATION (by decide) rfl rfl rfl⟩

end Composition

end Valthrun
